import Mathlib

/-!
# Verification of the CRBot episode controller (`env.py`, `Actions.py`)

Shallow embedding of the Clash-Royale reinforcement-learning environment:
the action-space generator, the state encoder `_get_state`, the reward
function `_compute_reward`, the `step` state machine, hand-card detection,
configuration validation and the endgame watcher loop.

Python floats are modelled by `Rat` (all arithmetic the claims touch is
exact at the claim level), device pixel coordinates by `Int`, detection
JSON by small inductive types covering exactly the shape discriminations
the source performs (`isinstance(..., dict)`, key presence, truthiness).
Fallible paths (uncaught exceptions) are modelled by `Option`/`Except`.
-/

namespace CRBot

/-! ## Geometry constants, from `Actions.py` (`__init__`) -/

/-- `TOP_LEFT_X = 0` (device-space x of the field's top-left corner). -/
def TOP_LEFT_X : Int := 0

/-- `TOP_LEFT_Y = 100` (device-space y of the field's top-left corner). -/
def TOP_LEFT_Y : Int := 100

/-- `WIDTH = BOTTOM_RIGHT_X - TOP_LEFT_X = 1280`. -/
def WIDTH : Int := 1280

/-- `HEIGHT = BOTTOM_RIGHT_Y - TOP_LEFT_Y = 620 - 100 = 520`. -/
def HEIGHT : Int := 520

/-- `MAX_ALLIES = 10` from `env.py`. -/
def MAX_ALLIES : Nat := 10

/-- `MAX_ENEMIES = 10` from `env.py`. -/
def MAX_ENEMIES : Nat := 10

/-- `SPELL_CARDS` from `env.py`. -/
def SPELL_CARDS : List String :=
  ["Fireball", "Zap", "Arrows", "Tornado", "Rocket", "Lightning", "Freeze"]

/-- Python `int(q)` for a rational: truncation toward zero. -/
def pyInt (q : Rat) : Int := if q < 0 then -((-q).floor) else q.floor

/-- Python `str.lower()`: character-wise lower-casing (the class labels
involved are ASCII, where `Char.toLower` agrees with Python). -/
def pyLower (s : String) : String := String.mk (s.data.map Char.toLower)

/-- Python `str.strip()`: drop leading and trailing whitespace. -/
def pyStrip (s : String) : String :=
  String.mk (((s.data.dropWhile Char.isWhitespace).reverse.dropWhile
    Char.isWhitespace).reverse)

/-- Character-list version of Python `str.startswith`. -/
def charsStart : List Char → List Char → Bool
  | [], _ => true
  | _ :: _, [] => false
  | p :: ps, c :: cs => p == c && charsStart ps cs

/-- Python `s.startswith(pre)`. -/
def pyStarts (s pre : String) : Bool := charsStart pre.data s.data

/-! ## Action-space generator (`get_available_actions`, env.py 296-304)

```python
actions = [
    [card, x / (self.grid_width - 1), y / (self.grid_height - 1)]
    for card in range(self.num_cards)
    for x in range(self.grid_width)
    for y in range(self.grid_height)
]
actions.append([-1, 0, 0])
```
The comprehension is card-major, then x, then y.  The function is pure, so
the catalogue is identical on every run. -/

/-- One action triple `(card_index, x_frac, y_frac)`. -/
abbrev Action := Int × Rat × Rat

/-- Innermost loop of the comprehension: one card and one x, all y. -/
def grid_col (card x grid_width grid_height : Nat) : List Action :=
  (List.range grid_height).map fun (y : Nat) =>
    ((card : Int), (x : Rat) / ((grid_width - 1 : Nat) : Rat),
      ((y : Rat)) / ((grid_height - 1 : Nat) : Rat))

/-- Middle loop of the comprehension: one card, all x then y. -/
def grid_card (card grid_width grid_height : Nat) : List Action :=
  (List.range grid_width).flatMap fun x => grid_col card x grid_width grid_height

/-- The grid part of the catalogue (the comprehension, before the no-op is
appended). -/
def grid_actions (num_cards grid_width grid_height : Nat) : List Action :=
  (List.range num_cards).flatMap fun card => grid_card card grid_width grid_height

/-- `get_available_actions`: the comprehension with the no-op `[-1, 0, 0]`
appended last. -/
def get_available_actions (num_cards grid_width grid_height : Nat) : List Action :=
  grid_actions num_cards grid_width grid_height ++ [((-1 : Int), (0 : Rat), (0 : Rat))]

/-- `self.available_actions` for the defaults `num_cards = 4`,
`grid_width = 18`, `grid_height = 28` set in `__init__`. -/
def available_actions : List Action := get_available_actions 4 18 28

/-! ## Detection data model

The Roboflow responses are loosely-typed JSON.  `env.py` only ever
discriminates: is the whole result a dict with a `"predictions"` key, a
non-empty list whose first element is a dict with a `"predictions"` key,
is the predictions value truthy, is it a dict with a further
`"predictions"` key (unwrapped exactly once), and for each iterated
element: is it a dict, its optional `"class"`, `"x"`, `"y"` fields.  The
types below model exactly these shapes.  Iterating a Python dict yields
its keys (strings), which every consumer drops with an
`isinstance(p, dict)` / `continue` guard; `PredsVal.entries` therefore
turns dict iteration into `.other` entries. -/

/-- One element of an iterated predictions collection: either a dict
(`class`, `x`, `y` fields optional) or a non-dict value. -/
inductive PredEntry where
  | record (cls : Option String) (x y : Option Rat)
  | other
deriving DecidableEq

/-- A value stored under a `"predictions"` key: a JSON list of entries, or
a dict which may itself hold a `"predictions"` value plus `extraKeys`
other keys. -/
inductive PredsVal where
  | plist (ps : List PredEntry)
  | pdict (inner : Option PredsVal) (extraKeys : Nat)

/-- Python truthiness of a predictions value: a list is truthy iff
non-empty, a dict iff it has at least one key. -/
def PredsVal.truthy : PredsVal → Bool
  | .plist ps => !ps.isEmpty
  | .pdict inner extraKeys => inner.isSome || extraKeys != 0

/-- The single unwrap step
`if isinstance(predictions, dict) and "predictions" in predictions:
predictions = predictions["predictions"]`. -/
def PredsVal.unwrapOnce : PredsVal → PredsVal
  | .pdict (some v) _ => v
  | v => v

/-- The entries obtained by iterating the value: the elements of a list,
or the keys of a dict (strings — non-dict entries). -/
def PredsVal.entries : PredsVal → List PredEntry
  | .plist ps => ps
  | .pdict inner extraKeys =>
      List.replicate ((if inner.isSome then 1 else 0) + extraKeys) .other

/-- First element of a result list: a dict (with optional `"predictions"`
value) or a non-dict. -/
inductive ResultsElem where
  | edict (preds : Option PredsVal)
  | eother

/-- The raw workflow response: a dict (with optional `"predictions"`),
a list, or anything else. -/
inductive Results where
  | rdict (preds : Option PredsVal)
  | rlist (elems : List ResultsElem)
  | rother

/-- The extraction prelude of `_get_state` (env.py 173-179):

```python
predictions = []
if isinstance(results, dict) and "predictions" in results:
    predictions = results["predictions"]
elif isinstance(results, list) and results:
    first = results[0]
    if isinstance(first, dict) and "predictions" in first:
        predictions = first["predictions"]
```
`none` means `predictions` is left as the (falsy) empty list. -/
def extractPreds : Results → Option PredsVal
  | .rdict p => p
  | .rlist (.edict p :: _) => p
  | _ => none

/-- Whether `_get_state` gets past `if not predictions: return None`:
the extracted predictions value exists and is truthy. -/
def hasPredictions (r : Results) : Bool :=
  match extractPreds r with
  | none => false
  | some v => v.truthy

/-- `TOWER_CLASSES` from `_get_state`. -/
def TOWER_CLASSES : List String :=
  ["ally king tower", "ally princess tower", "enemy king tower", "enemy princess tower"]

/-- `normalize_class`: `cls.strip().lower()` with `""` for the missing /
non-string case (`p.get("class", "")`). -/
def normalize_class (cls : Option String) : String := pyLower (pyStrip (cls.getD ""))

/-- The per-entry filter of the `allies` / `enemies` comprehensions in
`_get_state`: keep a dict entry with `x` and `y` whose normalized class is
not a tower class and starts with `side`; return its raw pixel pair. -/
def unit_xy (side : String) (p : PredEntry) : Option (Rat × Rat) :=
  match p with
  | .record cls (some x) (some y) =>
      let n := normalize_class cls
      if n ∈ TOWER_CLASSES then none
      else if pyStarts n side then some (x, y)
      else none
  | _ => none

/-- `normalize(units)`: pixel pair to field fractions. -/
def normUnit (u : Rat × Rat) : Rat × Rat := (u.1 / (WIDTH : Rat), u.2 / (HEIGHT : Rat))

/-- `pad_units(units, max_units)`: normalize, pad with `(0.0, 0.0)` up to
`max_units`, truncate to `max_units`. -/
def padUnits (units : List (Rat × Rat)) (max_units : Nat) : List (Rat × Rat) :=
  let us := units.map normUnit
  (us ++ List.replicate (max_units - us.length) ((0 : Rat), (0 : Rat))).take max_units

/-- Flattening a list of pairs into interleaved coordinates
(`[coord for pos in positions for coord in pos]`). -/
def flatUnits (l : List (Rat × Rat)) : List Rat := l.flatMap fun u => [u.1, u.2]

/-- The ally detections kept by `_get_state` for a result (raw pixels). -/
def stateAllies (r : Results) : List (Rat × Rat) :=
  ((extractPreds r).getD (.plist [])).unwrapOnce.entries.filterMap (unit_xy "ally")

/-- The enemy detections kept by `_get_state` for a result (raw pixels). -/
def stateEnemies (r : Results) : List (Rat × Rat) :=
  ((extractPreds r).getD (.plist [])).unwrapOnce.entries.filterMap (unit_xy "enemy")

/-- `_get_state` (env.py 154-244).  Inputs: the elixir estimate
(`count_elixir`, an integer 0-10), the workflow response, and the stored
`last_predictions`.  Output: the observation (`none` models Python
`None`) and the updated `last_predictions` (unchanged on the `None`
path, since `self.last_predictions = predictions` runs after the early
return). -/
def get_state (elixir : Nat) (r : Results) (lp : List PredEntry) :
    Option (List Rat) × List PredEntry :=
  match extractPreds r with
  | none => (none, lp)
  | some pv =>
    if pv.truthy then
      let entries := pv.unwrapOnce.entries
      let allies := entries.filterMap (unit_xy "ally")
      let enemies := entries.filterMap (unit_xy "enemy")
      (some (((elixir : Rat) / 10) ::
        (flatUnits (padUnits allies MAX_ALLIES) ++
          flatUnits (padUnits enemies MAX_ENEMIES))), entries)
    else (none, lp)

/-! ## Reward function (`_compute_reward`, env.py 246-260) -/

/-- `_compute_reward`.  Takes the stored `prev_elixir` and
`prev_enemy_presence` and the (possibly `None`) state; returns the reward
and the new stored pair.  On `state is None` the function returns `0`
before reaching the update lines, so the stored pair is unchanged. -/
def compute_reward (prev_elixir prev_enemy_presence : Option Rat) :
    Option (List Rat) → Rat × Option Rat × Option Rat
  | none => (0, prev_elixir, prev_enemy_presence)
  | some state =>
      let elixir := state.headD 0 * 10
      let enemy_presence := (state.drop (1 + 2 * MAX_ALLIES)).sum
      let base := -enemy_presence
      let reward :=
        match prev_elixir, prev_enemy_presence with
        | some pe, some pp =>
            let elixir_spent := pe - elixir
            let enemy_reduced := pp - enemy_presence
            if 0 < elixir_spent ∧ 0 < enemy_reduced then
              base + 2 * min elixir_spent enemy_reduced
            else base
        | _, _ => base
      (reward, some elixir, some enemy_presence)

/-! ## Placement heuristic (`_get_enemy_units`, `_compute_placement`) -/

/-- `_get_enemy_units` (env.py 338-362): non-tower `enemy*` records with
class and both coordinates present (an empty class string is skipped by
`if not cls: continue`). -/
def get_enemy_units (lp : List PredEntry) : List (Rat × Rat) :=
  lp.filterMap fun p =>
    match p with
    | .record (some cls) (some x) (some y) =>
        if cls.isEmpty then none
        else
          let n := pyLower (pyStrip cls)
          if n ∈ TOWER_CLASSES then none
          else if pyStarts n "enemy" then some (x, y)
          else none
    | _ => none

/-- `max(0.0, min(1.0, q))`. -/
def clamp01 (q : Rat) : Rat := max 0 (min 1 q)

/-- Python `max(units, key=lambda u: u["y"])`: first element with the
greatest y. -/
def maxByY (u0 : Rat × Rat) (us : List (Rat × Rat)) : Rat × Rat :=
  us.foldl (fun best u => if best.2 < u.2 then u else best) u0

/-- `_compute_placement` (env.py 364-383): spell cards target the clamped
enemy centroid (field centre when no enemies); troop cards target the
most-advanced enemy's x at depth `y = 0.75` (default `(0.5, 0.8)`). -/
def compute_placement (card_name : String) (lp : List PredEntry) : Rat × Rat :=
  let units := get_enemy_units lp
  if card_name ∈ SPELL_CARDS then
    match units with
    | [] => (1/2, 1/2)
    | u :: us =>
        let n := units.length
        let cx := ((u :: us).map Prod.fst).sum / (n : Rat)
        let cy := ((u :: us).map Prod.snd).sum / (n : Rat)
        (clamp01 (cx / (WIDTH : Rat)), clamp01 (cy / (HEIGHT : Rat)))
  else
    match units with
    | [] => (1/2, 4/5)
    | u :: us =>
        let nearest := maxByY u us
        (clamp01 (nearest.1 / (WIDTH : Rat)), 3/4)

/-! ## Spell-accuracy check (env.py 127-140)

```python
for i in range(1 + 2 * MAX_ALLIES, 1 + 2 * MAX_ALLIES + 2 * MAX_ENEMIES, 2):
    ex = state[i]; ey = state[i + 1]
    if ex != 0.0 or ey != 0.0:
        ex_px = int(ex * self.actions.WIDTH)
        ey_px = int(ey * self.actions.HEIGHT)
        enemy_positions.append((ex_px, ey_px))
radius = 100
found_enemy = any((abs(ex - x) ** 2 + abs(ey - y) ** 2) ** 0.5 < radius ...)
```
Note the enemy pixels are field-relative (no `TOP_LEFT_X/Y` offset is
added back), while `(x, y)` is the absolute device-space play target. -/

/-- The enemy pixel positions rebuilt from the state vector in the spell
check.  Indices 21, 23, ..., 39 hold the enemy x fractions. -/
def spell_enemy_positions (state : List Rat) : List (Int × Int) :=
  (List.range MAX_ENEMIES).filterMap fun k =>
    let i := 1 + 2 * MAX_ALLIES + 2 * k
    let ex := state.getD i 0
    let ey := state.getD (i + 1) 0
    if ex ≠ 0 ∨ ey ≠ 0 then some (pyInt (ex * (WIDTH : Rat)), pyInt (ey * (HEIGHT : Rat)))
    else none

/-- `found_enemy`: some rebuilt enemy pixel lies strictly within 100
pixels of `(x, y)`.  `sqrt(d) < 100 ↔ d < 10000` for non-negative `d`
(exact at the boundary, since `100.0 ** 2` and `sqrt(10000.0)` are exact
floats). -/
def found_enemy (positions : List (Int × Int)) (x y : Int) : Bool :=
  positions.any fun p => (p.1 - x) ^ 2 + (p.2 - y) ^ 2 < 10000

/-! ## Episode controller state machine (`reset` / `step` / `close`) -/

/-- Python truthiness of `self.game_over_flag` (a string or `None`). -/
def gameOverTruthy : Option String → Bool
  | none => false
  | some s => !s.isEmpty

/-- The mutable environment fields `step` reads and writes. -/
structure EnvState where
  game_over_flag : Option String
  match_over_detected : Bool
  prev_elixir : Option Rat
  prev_enemy_presence : Option Rat
  prev_enemy_princess_towers : Option Nat
  current_cards : List String
  last_predictions : List PredEntry
deriving DecidableEq

/-- Inputs consumed by one `_get_state` call: the elixir estimate and the
workflow response for the screenshot taken at that moment. -/
structure GSInput where
  elixir : Nat
  res : Results

/-- The external world as observed by one `step` call: the match-over
template check, the detected hand, one detection input per `_get_state`
call site (spell check, reward, returned observation), and the enemy
princess tower count seen by `_count_enemy_princess_towers`. -/
structure StepWorld where
  matchOver : Bool
  cards : List String
  gsSpell : GSInput
  gsReward : GSInput
  gsReturn : GSInput
  towerCount : Nat

/-- The results of one `step` call: updated fields, returned observation,
reward, done flag, and the `card_play(x, y, card_index)` invocation if a
card was played. -/
structure StepOut where
  state : EnvState
  obs : Option (List Rat)
  reward : Rat
  done : Bool
  played : Option (Nat × Int × Int)
deriving DecidableEq

/-- Common tail of the non-terminal `step` paths: princess-tower bonus,
`_compute_reward` on a fresh state, and the returned observation from a
second fresh state (env.py 142-152). -/
def stepFinish (s1 : EnvState) (w : StepWorld) (lp : List PredEntry)
    (spell_penalty : Rat) (played : Option (Nat × Int × Int)) : StepOut :=
  let current_towers := w.towerCount
  let princess_tower_reward : Rat :=
    match s1.prev_enemy_princess_towers with
    | some p => if current_towers < p then 20 else 0
    | none => 0
  let gr := get_state w.gsReward.elixir w.gsReward.res lp
  let cr := compute_reward s1.prev_elixir s1.prev_enemy_presence gr.1
  let reward := cr.1 + spell_penalty + princess_tower_reward
  let nx := get_state w.gsReturn.elixir w.gsReturn.res gr.2
  let ns : EnvState :=
    { s1 with
      prev_enemy_princess_towers := some current_towers
      prev_elixir := cr.2.1
      prev_enemy_presence := cr.2.2
      last_predictions := nx.2 }
  { state := ns, obs := nx.1, reward := reward, done := false, played := played }

/-- The terminal branch of `step` (env.py 89-100): taken when
`self.game_over_flag` is truthy.  Ends the episode with `done = True` and
the terminal reward adjustment.  `self.game_over_flag` itself is NOT
cleared here — only `self.match_over_detected` is. -/
def stepGameOver (s : EnvState) (w : StepWorld) : StepOut :=
  let gr := get_state w.gsReward.elixir w.gsReward.res s.last_predictions
  let cr := compute_reward s.prev_elixir s.prev_enemy_presence gr.1
  let result := s.game_over_flag.getD ""
  let reward :=
    if result = "victory" then cr.1 + 100
    else if result = "defeat" then cr.1 - 100
    else cr.1
  let nx := get_state w.gsReturn.elixir w.gsReturn.res gr.2
  let ns : EnvState :=
    { s with
      match_over_detected := false
      prev_elixir := cr.2.1
      prev_enemy_presence := cr.2.2
      last_predictions := nx.2 }
  { state := ns, obs := nx.1, reward := reward, done := true, played := none }

/-- The all-Unknown branch of `step` (env.py 105-110): skip the move,
return reward 0 and `done = False`. -/
def stepUnknownHand (s1 : EnvState) (w : StepWorld) : StepOut :=
  let nx := get_state w.gsReturn.elixir w.gsReturn.res s1.last_predictions
  let ns : EnvState := { s1 with last_predictions := nx.2 }
  { state := ns, obs := nx.1, reward := 0, done := false, played := none }

/-- The card-play branch of `step` (env.py 118-140): look up the card
name, compute the placement, convert fractions to absolute device
coordinates, play, and for spell cards run the spell-accuracy check on a
fresh state.  `none` models the uncaught `TypeError` raised by
`state[i]` when the spell-check `_get_state` returned `None`. -/
def stepPlay (s1 : EnvState) (w : StepWorld) (ci : Nat) : Option StepOut :=
  let card_name := s1.current_cards.getD ci ""
  let target := compute_placement card_name s1.last_predictions
  let x := pyInt (target.1 * (WIDTH : Rat)) + TOP_LEFT_X
  let y := pyInt (target.2 * (HEIGHT : Rat)) + TOP_LEFT_Y
  let played := some (ci, x, y)
  if card_name ∈ SPELL_CARDS then
    let gs := get_state w.gsSpell.elixir w.gsSpell.res s1.last_predictions
    match gs.1 with
    | none => none
    | some st =>
        let spell_penalty : Rat :=
          if found_enemy (spell_enemy_positions st) x y then 0 else -5
        some (stepFinish s1 w gs.2 spell_penalty played)
  else
    some (stepFinish s1 w s1.last_predictions 0 played)

/-- `step(action_index)` (env.py 81-152).  The guard
`card_index != -1 and card_index < len(self.current_cards)` is modelled
by the nested ifs (Python's short-circuit `and`). -/
def step (s : EnvState) (w : StepWorld) (action_index : Nat) : Option StepOut :=
  let mo := s.match_over_detected || w.matchOver
  let ai := if mo then available_actions.length - 1 else action_index
  if gameOverTruthy s.game_over_flag then
    some (stepGameOver s w)
  else
    let cards := w.cards
    let s1 := { s with match_over_detected := mo, current_cards := cards }
    if cards.all (· == "Unknown") then
      some (stepUnknownHand s1 w)
    else
      let act := available_actions.getD ai ((-1 : Int), (0 : Rat), (0 : Rat))
      let card_index := act.1
      if card_index = -1 then
        some (stepFinish s1 w s1.last_predictions 0 none)
      else if card_index < (cards.length : Int) then
        stepPlay s1 w card_index.toNat
      else
        some (stepFinish s1 w s1.last_predictions 0 none)

/-- Inputs consumed by `reset()`: the tower count seen by
`_count_enemy_princess_towers` and the detection input of the final
`_get_state`. -/
structure ResetWorld where
  towerCount : Nat
  gs : GSInput

/-- `reset()` (env.py 64-74): clears the terminal flag and the match-over
latch, forgets the reward memory, stores the current tower count, and
returns a fresh observation.  (Thread restart is outside the model.) -/
def reset (s : EnvState) (w : ResetWorld) : EnvState × Option (List Rat) :=
  let s1 : EnvState :=
    { s with
      game_over_flag := none
      prev_elixir := none
      prev_enemy_presence := none
      prev_enemy_princess_towers := some w.towerCount
      match_over_detected := false }
  let nx := get_state w.gs.elixir w.gs.res s1.last_predictions
  ({ s1 with last_predictions := nx.2 }, nx.1)

/-! ## Hand-card detection (`detect_cards_in_hand`, env.py 262-294) -/

/-- Outcome of classifying one captured card slot: a top class, an empty
prediction list, or an exception raised by the network call. -/
inductive SlotResult where
  | ok (cls : String)
  | empty
  | err
deriving DecidableEq

/-- The name recorded for a slot when no exception interrupts the pass. -/
def slotName : SlotResult → String
  | .ok c => c
  | .empty => "Unknown"
  | .err => "Unknown"

/-- The `for card_path in card_paths` loop; `none` models an exception
escaping the loop (it aborts the pass, discarding earlier slots). -/
def runSlots : List SlotResult → Option (List String)
  | [] => some []
  | .err :: _ => none
  | .ok c :: rest => (runSlots rest).map (c :: ·)
  | .empty :: rest => (runSlots rest).map ("Unknown" :: ·)

/-- `detect_cards_in_hand`: the loop wrapped in
`try: ... except Exception: return []`. -/
def detect_cards_in_hand (slots : List SlotResult) : List String :=
  (runSlots slots).getD []

/-! ## Configuration validation (env.py 40-62, 158-160, 267-269, 317-319) -/

/-- The environment variables the controller reads. -/
structure Config where
  roboflow_api_key : Option String
  workspace_troop : Option String
  workspace_card : Option String

/-- Python `if not value:` on an environment variable: missing or empty. -/
def blank : Option String → Bool
  | none => true
  | some s => s.isEmpty

/-- `setup_roboflow` (env.py 40-50): raises when `ROBOFLOW_API_KEY` is
missing, else builds the client. -/
def setup_roboflow (c : Config) : Except String Unit :=
  if blank c.roboflow_api_key then
    .error "ROBOFLOW_API_KEY environment variable is not set."
  else .ok ()

/-- `setup_card_roboflow` (env.py 52-62): the same check. -/
def setup_card_roboflow (c : Config) : Except String Unit :=
  if blank c.roboflow_api_key then
    .error "ROBOFLOW_API_KEY environment variable is not set."
  else .ok ()

/-- `ClashRoyaleEnv.__init__` (env.py 19-38): runs the two client setups
and builds the action catalogue.  No workspace identifier is read or
validated here. -/
def env_init (c : Config) : Except String (List Action) := do
  let _ ← setup_roboflow c
  let _ ← setup_card_roboflow c
  .ok (get_available_actions 4 18 28)

/-- The lazy check at the top of `_get_state` (env.py 158-160): raises
when `WORKSPACE_TROOP_DETECTION` is missing, only when the method runs. -/
def get_state_checked (c : Config) (elixir : Nat) (r : Results)
    (lp : List PredEntry) : Except String (Option (List Rat) × List PredEntry) :=
  if blank c.workspace_troop then
    .error "WORKSPACE_TROOP_DETECTION environment variable is not set."
  else .ok (get_state elixir r lp)

/-- `detect_cards_in_hand` with its lazy `WORKSPACE_CARD_DETECTION` check
(env.py 267-269): the raise happens inside the `try`, so a missing value
is swallowed into `[]`. -/
def detect_cards_checked (c : Config) (slots : List SlotResult) : List String :=
  if blank c.workspace_card then [] else detect_cards_in_hand slots

/-- `Except` success as a Bool. -/
def exceptOk {α : Type} : Except String α → Bool
  | .ok _ => true
  | .error _ => false

/-! ## Endgame watcher (`_endgame_watcher`, env.py 306-312)

```python
while not self._endgame_thread_stop.is_set():
    result = self.actions.detect_game_end()
    if result:
        self.game_over_flag = result
        break
    time.sleep(0.5)
```
Modelled over a finite trace of poll observations: one `PollInput` per
loop iteration, holding the stop-event value read at the top of the
iteration and what `detect_game_end()` would return. -/

/-- What the watcher observes in one loop iteration. -/
structure PollInput where
  stopSet : Bool
  detect : Option String
deriving DecidableEq

/-- Runs the watcher loop over a trace.  Returns the latched
`game_over_flag` value (`none` if never latched) and the number of
`detect_game_end` calls performed. -/
def watcher_run : List PollInput → Option String × Nat
  | [] => (none, 0)
  | p :: rest =>
      if p.stopSet then (none, 0)
      else
        match p.detect with
        | some r =>
            if r.isEmpty then
              let out := watcher_run rest
              (out.1, out.2 + 1)
            else (some r, 1)
        | none =>
            let out := watcher_run rest
            (out.1, out.2 + 1)

/-! ## Concrete fixtures shared by witnesses and counterexamples -/

/-- A detection input whose response is the empty list (no predictions). -/
def emptyGS : GSInput := { elixir := 5, res := .rlist [] }

/-- One enemy unit detected at field pixel (640, 260) — the centre of the
1280x520 field. -/
def enemyAt640_260 : PredEntry := .record (some "enemy knight") (some 640) (some 260)

/-- A workflow response holding exactly that enemy. -/
def spellResults : Results := .rlist [.edict (some (.plist [enemyAt640_260]))]

/-- A quiescent environment state. -/
def baseState : EnvState :=
  { game_over_flag := none, match_over_detected := false, prev_elixir := none,
    prev_enemy_presence := none, prev_enemy_princess_towers := none,
    current_cards := [], last_predictions := [] }

/-- The environment state after the watcher latched a victory. -/
def terminalState : EnvState := { baseState with game_over_flag := some "victory" }

/-- A step input with a readable hand and empty detection responses. -/
def baseWorld : StepWorld :=
  { matchOver := false, cards := ["Knight", "Archers", "Giant", "Musketeer"],
    gsSpell := emptyGS, gsReward := emptyGS, gsReturn := emptyGS, towerCount := 0 }

/-- A step input whose hand reading failed (empty list — every entry of
the empty hand is vacuously "Unknown"). -/
def unknownWorld : StepWorld := { baseWorld with cards := [] }

/-- The environment state tracking one enemy at field pixel (640, 260). -/
def spellState : EnvState := { baseState with last_predictions := [enemyAt640_260] }

/-- A step input holding Fireball in slot 0, whose spell-check screenshot
sees the same single enemy at field pixel (640, 260). -/
def spellWorld : StepWorld :=
  { baseWorld with
    cards := ["Fireball", "Archers", "Giant", "Musketeer"]
    gsSpell := { elixir := 5, res := spellResults } }

/-! # Theorems -/

/-! ## Catalogue lemmas and C1 -/

/-- Length of a `flatMap` over `List.range` when every fibre has the same
length. -/
theorem length_range_flatMap {α : Type} (f : Nat → List α) (m n : Nat)
    (h : ∀ c, c < n → (f c).length = m) :
    ((List.range n).flatMap f).length = n * m := by
  induction n with
  | zero => simp
  | succ k ih =>
    rw [List.range_succ, List.flatMap_append, List.length_append,
      ih (fun c hc => h c (Nat.lt_succ_of_lt hc))]
    simp [h k (Nat.lt_succ_self k), Nat.succ_mul]

/-- Indexing a `flatMap` over `List.range` with constant fibre length: the
element at `c * m + j` is element `j` of fibre `c`. -/
theorem getElem?_range_flatMap {α : Type} (f : Nat → List α) (m n c j : Nat)
    (h : ∀ c, c < n → (f c).length = m) (hc : c < n) (hj : j < m) :
    ((List.range n).flatMap f)[c * m + j]? = (f c)[j]? := by
  induction n with
  | zero => omega
  | succ k ih =>
    rw [List.range_succ, List.flatMap_append, List.getElem?_append,
      length_range_flatMap f m k (fun c hc => h c (Nat.lt_succ_of_lt hc))]
    rcases Nat.lt_or_ge c k with h1 | h1
    · rw [if_pos]
      · exact ih (fun c hc => h c (Nat.lt_succ_of_lt hc)) h1
      · have h2 : c + 1 ≤ k := h1
        calc c * m + j < c * m + m := by omega
          _ = (c + 1) * m := by ring
          _ ≤ k * m := Nat.mul_le_mul_right m h2
    · have hck : c = k := by omega
      subst hck
      rw [if_neg (by omega)]
      have hidx : c * m + j - c * m = j := by omega
      rw [hidx]
      simp

/-- Each innermost column has `gh` entries. -/
theorem grid_col_length (card x gw gh : Nat) :
    (grid_col card x gw gh).length = gh := by
  simp [grid_col]

/-- Each per-card block has `gw * gh` entries. -/
theorem grid_card_length (card gw gh : Nat) :
    (grid_card card gw gh).length = gw * gh := by
  rw [grid_card]
  exact length_range_flatMap _ gh gw (fun x _ => grid_col_length card x gw gh)

/-- The grid part of the catalogue has `nc * gw * gh` entries. -/
theorem grid_actions_length (nc gw gh : Nat) :
    (grid_actions nc gw gh).length = nc * gw * gh := by
  rw [grid_actions, Nat.mul_assoc]
  exact length_range_flatMap _ (gw * gh) nc (fun c _ => grid_card_length c gw gh)

/-- The catalogue has `nc * gw * gh + 1` entries. -/
theorem get_available_actions_length (nc gw gh : Nat) :
    (get_available_actions nc gw gh).length = nc * gw * gh + 1 := by
  rw [get_available_actions, List.length_append, grid_actions_length]
  rfl

/-- Index formula for the grid part: the entry at `c * (gw * gh) + x * gh + y`
is `(c, x / (gw - 1), y / (gh - 1))` — card-major, then x, then y. -/
theorem grid_actions_getElem? (nc gw gh c x y : Nat)
    (hc : c < nc) (hx : x < gw) (hy : y < gh) :
    (grid_actions nc gw gh)[c * (gw * gh) + (x * gh + y)]? =
      some ((c : Int), (x : Rat) / ((gw - 1 : Nat) : Rat),
        (y : Rat) / ((gh - 1 : Nat) : Rat)) := by
  rw [grid_actions]
  rw [getElem?_range_flatMap _ (gw * gh) nc c (x * gh + y)
    (fun c _ => grid_card_length c gw gh) hc
    (by calc x * gh + y < x * gh + gh := by omega
          _ = (x + 1) * gh := by ring
          _ ≤ gw * gh := Nat.mul_le_mul_right gh hx)]
  rw [grid_card,
    getElem?_range_flatMap _ gh gw x y (fun x2 _ => grid_col_length c x2 gw gh) hx hy]
  simp [grid_col, hy]

/-- Entries of the catalogue below the no-op index come from the grid part. -/
theorem get_available_actions_getElem?_lt (nc gw gh i : Nat)
    (hi : i < nc * gw * gh) :
    (get_available_actions nc gw gh)[i]? = (grid_actions nc gw gh)[i]? := by
  rw [get_available_actions, List.getElem?_append, grid_actions_length,
    if_pos hi]

/-- The last entry of the catalogue is the no-op `(-1, 0, 0)`. -/
theorem get_available_actions_last (nc gw gh : Nat) :
    (get_available_actions nc gw gh)[nc * gw * gh]? =
      some ((-1 : Int), (0 : Rat), (0 : Rat)) := by
  rw [get_available_actions, List.getElem?_append, grid_actions_length,
    if_neg (by omega)]
  simp

/-- `available_actions.getD 2016 d = (-1, 0, 0)`: looking up the last index
of the default catalogue yields the no-op. -/
theorem available_actions_getD_noop (d : Action) :
    available_actions.getD 2016 d = ((-1 : Int), (0 : Rat), (0 : Rat)) := by
  rw [List.getD_eq_getElem?_getD]
  have h := get_available_actions_last 4 18 28
  rw [available_actions]
  norm_num at h ⊢
  rw [h]
  rfl

/-- The default catalogue has 2017 entries. -/
theorem available_actions_length : available_actions.length = 2017 := by
  rw [available_actions, get_available_actions_length]

/-- C1: `get_available_actions` returns a catalogue of exactly
`num_cards * grid_width * grid_height + 1` entries (2017 for the defaults
4, 18, 28), enumerated card-major then x then y with grid index `i` mapped
to the fraction `i / (dimension - 1)`; entry 0 is `(card 0, 0.0, 0.0)`, and
the single no-op action `(-1, 0, 0)` sits at the last index.  The
generator is a pure function of its three parameters, so the same
catalogue is produced on every run. -/
theorem c1_action_catalogue :
    (∀ nc gw gh : Nat, (get_available_actions nc gw gh).length = nc * gw * gh + 1) ∧
    available_actions.length = 2017 ∧
    (∀ c x y : Nat, c < 4 → x < 18 → y < 28 →
      available_actions[c * (18 * 28) + (x * 28 + y)]? =
        some ((c : Int), (x : Rat) / 17, (y : Rat) / 27)) ∧
    available_actions[0]? = some ((0 : Int), (0 : Rat), (0 : Rat)) ∧
    available_actions[2016]? = some ((-1 : Int), (0 : Rat), (0 : Rat)) := by
  refine ⟨get_available_actions_length, available_actions_length, ?_, ?_, ?_⟩
  · intro c x y hc hx hy
    have hlt : c * (18 * 28) + (x * 28 + y) < 4 * 18 * 28 := by
      have h1 : x * 28 + y < 18 * 28 := by
        calc x * 28 + y < x * 28 + 28 := by omega
          _ = (x + 1) * 28 := by ring
          _ ≤ 18 * 28 := Nat.mul_le_mul_right 28 hx
      calc c * (18 * 28) + (x * 28 + y) < c * (18 * 28) + 18 * 28 := by omega
        _ = (c + 1) * (18 * 28) := by ring
        _ ≤ 4 * (18 * 28) := Nat.mul_le_mul_right _ hc
        _ = 4 * 18 * 28 := by ring
    rw [available_actions, get_available_actions_getElem?_lt 4 18 28 _ hlt,
      grid_actions_getElem? 4 18 28 c x y hc hx hy]
    norm_num
  · have h := grid_actions_getElem? 4 18 28 0 0 0 (by norm_num) (by norm_num)
      (by norm_num)
    rw [available_actions,
      get_available_actions_getElem?_lt 4 18 28 0 (by norm_num)]
    simpa using h
  · have h := get_available_actions_last 4 18 28
    rw [available_actions]
    norm_num at h ⊢
    exact h

/-- Witness for C1 at a concrete index: the catalogue entry at
`1 * 504 + 2 * 28 + 3 = 563` is card 1, grid cell (2, 3), i.e. fractions
`(2/17, 3/27)`. -/
theorem c1_action_catalogue_witness :
    available_actions[1 * (18 * 28) + (2 * 28 + 3)]? =
      some ((1 : Int), (2 : Rat) / 17, (3 : Rat) / 27) :=
  c1_action_catalogue.2.2.1 1 2 3 (by norm_num) (by norm_num) (by norm_num)

/-! ## State-encoder lemmas and C2 -/

/-- `_get_state` returns `None` exactly when the extracted predictions
value is missing or falsy. -/
theorem get_state_fst_eq_none_iff (e : Nat) (r : Results) (lp : List PredEntry) :
    (get_state e r lp).1 = none ↔ hasPredictions r = false := by
  cases hE : extractPreds r with
  | none => simp [get_state, hasPredictions, hE]
  | some pv =>
    cases htr : pv.truthy with
    | false => simp [get_state, hasPredictions, hE, htr]
    | true => simp [get_state, hasPredictions, hE, htr]

/-- The observation component of `_get_state` does not depend on the
stored `last_predictions`. -/
theorem get_state_fst_indep (e : Nat) (r : Results) (lp lp2 : List PredEntry) :
    (get_state e r lp).1 = (get_state e r lp2).1 := by
  cases hE : extractPreds r with
  | none => simp [get_state, hE]
  | some pv =>
    cases htr : pv.truthy with
    | false => simp [get_state, hE, htr]
    | true => simp [get_state, hE, htr]

/-- `pad_units` always returns exactly `max_units` entries (padding or
truncating as needed). -/
theorem padUnits_length (us : List (Rat × Rat)) (m : Nat) :
    (padUnits us m).length = m := by
  simp only [padUnits, List.length_take, List.length_append,
    List.length_replicate, List.length_map]
  omega

/-- Flattening pairs doubles the length. -/
theorem flatUnits_length (l : List (Rat × Rat)) :
    (flatUnits l).length = 2 * l.length := by
  induction l with
  | nil => rfl
  | cons u us ih =>
    simp only [flatUnits, List.flatMap_cons] at ih ⊢
    simp [ih]
    omega

/-- Slots at or beyond the number of detections are exactly `(0.0, 0.0)`. -/
theorem padUnits_getElem?_pad (us : List (Rat × Rat)) (m i : Nat)
    (h1 : us.length ≤ i) (h2 : i < m) :
    (padUnits us m)[i]? = some ((0 : Rat), (0 : Rat)) := by
  simp only [padUnits]
  rw [List.getElem?_take, if_pos h2,
    List.getElem?_append_right (by simpa using h1),
    List.getElem?_replicate, if_pos (by simp only [List.length_map]; omega)]

/-- On the success path the observation is the elixir fraction followed by
the padded ally block then the padded enemy block. -/
theorem get_state_some (e : Nat) (r : Results) (lp : List PredEntry)
    (h : hasPredictions r = true) :
    (get_state e r lp).1 =
      some (((e : Rat) / 10) ::
        (flatUnits (padUnits (stateAllies r) MAX_ALLIES) ++
          flatUnits (padUnits (stateEnemies r) MAX_ENEMIES))) := by
  cases hE : extractPreds r with
  | none => simp [hasPredictions, hE] at h
  | some pv =>
    have htr : pv.truthy = true := by
      simpa [hasPredictions, hE] using h
    simp [get_state, hE, htr, stateAllies, stateEnemies]

/-- Every observation `_get_state` returns has length exactly
`1 + 2 * (MAX_ALLIES + MAX_ENEMIES) = 41`. -/
theorem get_state_length (e : Nat) (r : Results) (lp : List PredEntry)
    (v : List Rat) (h : (get_state e r lp).1 = some v) :
    v.length = 1 + 2 * (MAX_ALLIES + MAX_ENEMIES) := by
  by_cases hp : hasPredictions r = true
  · rw [get_state_some e r lp hp] at h
    cases h
    simp [List.length_append, flatUnits_length, padUnits_length,
      MAX_ALLIES, MAX_ENEMIES]
  · have hf : hasPredictions r = false := by
      revert hp; cases hasPredictions r <;> simp
    rw [show (get_state e r lp).1 = none from
      (get_state_fst_eq_none_iff e r lp).mpr hf] at h
    cases h

/-- The terminal branch returns the observation of the final `_get_state`. -/
theorem stepGameOver_obs (s : EnvState) (w : StepWorld) :
    (stepGameOver s w).obs = (get_state w.gsReturn.elixir w.gsReturn.res []).1 := by
  simp only [stepGameOver]
  exact get_state_fst_indep _ _ _ _

/-- The all-Unknown branch returns the observation of the final
`_get_state`. -/
theorem stepUnknownHand_obs (s1 : EnvState) (w : StepWorld) :
    (stepUnknownHand s1 w).obs = (get_state w.gsReturn.elixir w.gsReturn.res []).1 := by
  simp only [stepUnknownHand]
  exact get_state_fst_indep _ _ _ _

/-- The common tail returns the observation of the final `_get_state`. -/
theorem stepFinish_obs (s1 : EnvState) (w : StepWorld) (lp : List PredEntry)
    (p : Rat) (pl : Option (Nat × Int × Int)) :
    (stepFinish s1 w lp p pl).obs = (get_state w.gsReturn.elixir w.gsReturn.res []).1 := by
  simp only [stepFinish]
  exact get_state_fst_indep _ _ _ _

/-- The play branch, when it does not crash, returns the observation of
the final `_get_state`. -/
theorem stepPlay_obs (s1 : EnvState) (w : StepWorld) (ci : Nat)
    (out : StepOut) (h : stepPlay s1 w ci = some out) :
    out.obs = (get_state w.gsReturn.elixir w.gsReturn.res []).1 := by
  simp only [stepPlay] at h
  split at h
  · split at h
    · simp at h
    · cases h
      exact stepFinish_obs _ _ _ _ _
  · cases h
    exact stepFinish_obs _ _ _ _ _

/-- The card-index dispatch at the end of `step`, for a generalized
looked-up action: whatever the branch, the observation comes from the
final `_get_state`. -/
theorem step_tail_obs (s1 : EnvState) (w : StepWorld) (a : Action)
    (out : StepOut)
    (h : (if a.1 = -1 then some (stepFinish s1 w s1.last_predictions 0 none)
          else if a.1 < (w.cards.length : Int) then stepPlay s1 w a.1.toNat
          else some (stepFinish s1 w s1.last_predictions 0 none)) = some out) :
    out.obs = (get_state w.gsReturn.elixir w.gsReturn.res []).1 := by
  split at h
  · cases h
    exact stepFinish_obs _ _ _ _ _
  · split at h
    · exact stepPlay_obs _ _ _ _ h
    · cases h
      exact stepFinish_obs _ _ _ _ _

/-- Every `step` output passes the observation of the final `_get_state`
call through unmodified. -/
theorem step_obs_passthrough (s : EnvState) (w : StepWorld) (ai : Nat)
    (out : StepOut) (h : step s w ai = some out) :
    out.obs = (get_state w.gsReturn.elixir w.gsReturn.res []).1 := by
  simp only [step] at h
  split at h
  · cases h
    exact stepGameOver_obs s w
  · split at h
    · cases h
      exact stepUnknownHand_obs _ w
    · exact step_tail_obs _ w _ out h

/-- C2 (amended): for every detection result the state encoder either
returns a vector of length exactly `1 + 2*(MAX_ALLIES + MAX_ENEMIES) = 41`
— element 0 is `elixir/10`, followed by the ally block then the enemy
block, each padded with exactly `(0.0, 0.0)` or truncated to 10 entries,
with tower classes excluded and side chosen by the trimmed lower-cased
class prefix (embodied in `stateAllies` / `stateEnemies`) — or returns the
explicit no-observation signal `none`, which `step` passes through.  The
amendment: `None` is returned exactly when the extracted top-level
`predictions` value is missing or falsy, NOT whenever the result contains
no predictions at all — a result wrapping an empty inner prediction list
inside a non-empty dict yields the zero-padded vector (see the
counterexample). -/
theorem c2_state_encoder_amended :
    (∀ (e : Nat) (r : Results) (lp : List PredEntry),
      (get_state e r lp).1 = none ↔ hasPredictions r = false) ∧
    (∀ (e : Nat) (r : Results) (lp : List PredEntry),
      hasPredictions r = true →
      (get_state e r lp).1 =
        some (((e : Rat) / 10) ::
          (flatUnits (padUnits (stateAllies r) MAX_ALLIES) ++
            flatUnits (padUnits (stateEnemies r) MAX_ENEMIES)))) ∧
    (∀ (e : Nat) (r : Results) (lp : List PredEntry) (v : List Rat),
      (get_state e r lp).1 = some v → v.length = 41) ∧
    (∀ (us : List (Rat × Rat)) (m i : Nat), us.length ≤ i → i < m →
      (padUnits us m)[i]? = some ((0 : Rat), (0 : Rat))) ∧
    (∀ (s : EnvState) (w : StepWorld) (ai : Nat) (out : StepOut),
      step s w ai = some out →
      out.obs = (get_state w.gsReturn.elixir w.gsReturn.res []).1) := by
  refine ⟨get_state_fst_eq_none_iff, get_state_some, ?_, padUnits_getElem?_pad,
    step_obs_passthrough⟩
  intro e r lp v h
  have := get_state_length e r lp v h
  simpa [MAX_ALLIES, MAX_ENEMIES] using this

/-- Witness for C2: a concrete result with one ally at pixel (100, 200)
and predictions present encodes to `5/10` followed by the padded blocks. -/
theorem c2_state_encoder_witness :
    (get_state 5
      (.rdict (some (.plist [.record (some "ally knight") (some 100) (some 200)])))
      []).1 =
      some (((5 : Rat) / 10) ::
        (flatUnits (padUnits
            (stateAllies (.rdict (some (.plist
              [.record (some "ally knight") (some 100) (some 200)]))))
            MAX_ALLIES) ++
          flatUnits (padUnits
            (stateEnemies (.rdict (some (.plist
              [.record (some "ally knight") (some 100) (some 200)]))))
            MAX_ENEMIES))) :=
  c2_state_encoder_amended.2.1 5
    (.rdict (some (.plist [.record (some "ally knight") (some 100) (some 200)])))
    [] (by decide)

/-- C2 counterexample to the claim as stated: the result
`[{"predictions": {"predictions": []}}]` contains no prediction records at
all (no ally, no enemy, no entries), yet `_get_state` returns a vector
(the wrapping dict is truthy), not the explicit no-observation signal. -/
theorem c2_state_encoder_counterexample :
    ((get_state 5 (.rlist [.edict (some (.pdict (some (.plist [])) 0))]) []).1).isSome
      = true ∧
    stateAllies (.rlist [.edict (some (.pdict (some (.plist [])) 0))]) = [] ∧
    stateEnemies (.rlist [.edict (some (.pdict (some (.plist [])) 0))]) = [] := by
  refine ⟨by decide, by decide, by decide⟩

/-! ## Reward-function lemmas and C5 -/

/-- C5 counterexample to the claim as stated: on a call with a `None`
observation, `_compute_reward` returns 0 and leaves both stored previous
values untouched (here the stale `prev_elixir = 5`,
`prev_enemy_presence = 3`), instead of updating them on "every call". -/
theorem c5_reward_update_counterexample :
    compute_reward (some 5) (some 3) none = (0, some 5, some 3) := rfl

/-- C5 (amended): on each call with a non-null observation,
`_compute_reward` returns `-enemy_presence` (the sum of the enemy block,
`state[1 + 2*MAX_ALLIES:]`), plus `2 * min(prev_elixir - elixir,
prev_enemy_presence - enemy_presence)` when both previous values are known
and both differences are strictly positive, and it updates the stored
pair to the current values.  The amendment: on a call with a `None`
observation nothing is updated (the function returns 0 before the update
lines), so the update happens on every call with a non-null observation,
not on every call. -/
theorem c5_compute_reward_amended :
    (∀ pe pp : Option Rat, compute_reward pe pp none = (0, pe, pp)) ∧
    (∀ (pe pp : Option Rat) (st : List Rat),
      (compute_reward pe pp (some st)).2 =
        (some (st.headD 0 * 10), some ((st.drop (1 + 2 * MAX_ALLIES)).sum))) ∧
    (∀ (a b : Rat) (st : List Rat),
      0 < a - st.headD 0 * 10 → 0 < b - (st.drop (1 + 2 * MAX_ALLIES)).sum →
      (compute_reward (some a) (some b) (some st)).1 =
        -(st.drop (1 + 2 * MAX_ALLIES)).sum +
          2 * min (a - st.headD 0 * 10) (b - (st.drop (1 + 2 * MAX_ALLIES)).sum)) ∧
    (∀ (a b : Rat) (st : List Rat),
      ¬(0 < a - st.headD 0 * 10 ∧ 0 < b - (st.drop (1 + 2 * MAX_ALLIES)).sum) →
      (compute_reward (some a) (some b) (some st)).1 =
        -(st.drop (1 + 2 * MAX_ALLIES)).sum) ∧
    (∀ (pp : Option Rat) (st : List Rat),
      (compute_reward none pp (some st)).1 = -(st.drop (1 + 2 * MAX_ALLIES)).sum) ∧
    (∀ (pe : Option Rat) (st : List Rat),
      (compute_reward pe none (some st)).1 = -(st.drop (1 + 2 * MAX_ALLIES)).sum) := by
  refine ⟨fun pe pp => rfl, fun pe pp st => rfl, ?_, ?_, fun pp st => rfl, ?_⟩
  · intro a b st h1 h2
    show (if 0 < a - st.headD 0 * 10 ∧ 0 < b - (st.drop (1 + 2 * MAX_ALLIES)).sum
        then -(st.drop (1 + 2 * MAX_ALLIES)).sum +
          2 * min (a - st.headD 0 * 10) (b - (st.drop (1 + 2 * MAX_ALLIES)).sum)
        else -(st.drop (1 + 2 * MAX_ALLIES)).sum) = _
    exact if_pos ⟨h1, h2⟩
  · intro a b st h
    show (if 0 < a - st.headD 0 * 10 ∧ 0 < b - (st.drop (1 + 2 * MAX_ALLIES)).sum
        then -(st.drop (1 + 2 * MAX_ALLIES)).sum +
          2 * min (a - st.headD 0 * 10) (b - (st.drop (1 + 2 * MAX_ALLIES)).sum)
        else -(st.drop (1 + 2 * MAX_ALLIES)).sum) = _
    exact if_neg h
  · intro pe st
    cases pe <;> rfl

/-- Witness for C5 at a concrete state: previous elixir 5 and previous
presence 3 against a state with elixir fraction 1/5 and empty board give
the efficiency bonus. -/
theorem c5_compute_reward_witness :
    (compute_reward (some 5) (some 3)
        (some (((1 : Rat)/5) :: List.replicate 40 0))).1 =
      -(((((1 : Rat)/5) :: List.replicate 40 0).drop (1 + 2 * MAX_ALLIES)).sum) +
        2 * min (5 - (((1 : Rat)/5) :: List.replicate 40 0).headD 0 * 10)
          (3 - ((((1 : Rat)/5) :: List.replicate 40 0).drop (1 + 2 * MAX_ALLIES)).sum) :=
  c5_compute_reward_amended.2.2.1 5 3 (((1 : Rat)/5) :: List.replicate 40 0)
    (by simp only [List.headD_cons]; norm_num)
    (by simp [MAX_ALLIES, List.sum_replicate])

/-! ## Terminal-step lemmas and C3 -/

/-- `reset()` clears the terminal flag. -/
theorem reset_clears_game_over (s : EnvState) (w : ResetWorld) :
    (reset s w).1.game_over_flag = none := rfl

/-- C3 counterexample to the claim as stated: after a `step()` that
consumed a latched victory, `self.game_over_flag` is still `"victory"` —
the terminal flag is NOT cleared as it is consumed (only
`self.match_over_detected` is); the flag is cleared by the next
`reset()`. -/
theorem c3_terminal_flag_counterexample :
    (step terminalState baseWorld 0).map
      (fun o => (o.done, o.state.game_over_flag, o.state.match_over_detected)) =
      some (true, some "victory", false) := by
  decide

/-- C3 (amended): when the watcher has latched a terminal outcome, the
next `step()` ends the episode with `done = true` and returns the base
reward plus 100 on victory / minus 100 on defeat, and clears the
match-over latch; the terminal flag itself stays set until the next
`reset()` clears it. -/
theorem c3_terminal_step_amended :
    ∀ (s : EnvState) (w : StepWorld) (ai : Nat) (r : String),
      s.game_over_flag = some r → (r = "victory" ∨ r = "defeat") →
      ∃ out, step s w ai = some out ∧
        out.done = true ∧
        out.reward =
          (compute_reward s.prev_elixir s.prev_enemy_presence
            (get_state w.gsReward.elixir w.gsReward.res s.last_predictions).1).1 +
            (if r = "victory" then (100 : Rat) else -100) ∧
        out.state.game_over_flag = some r ∧
        out.state.match_over_detected = false ∧
        (∀ w2 : ResetWorld, (reset out.state w2).1.game_over_flag = none) := by
  intro s w ai r hflag hr
  have hgo : gameOverTruthy s.game_over_flag = true := by
    rw [hflag]
    rcases hr with rfl | rfl <;> decide
  refine ⟨stepGameOver s w, by simp [step, hgo], rfl, ?_, hflag, rfl,
    fun w2 => rfl⟩
  rcases hr with rfl | rfl
  · simp [stepGameOver, hflag]
  · simp [stepGameOver, hflag]
    ring

/-- Witness for C3 with a concrete latched victory. -/
theorem c3_terminal_step_witness :
    ∃ out, step terminalState baseWorld 3 = some out ∧
      out.done = true ∧
      out.reward =
        (compute_reward terminalState.prev_elixir terminalState.prev_enemy_presence
          (get_state baseWorld.gsReward.elixir baseWorld.gsReward.res
            terminalState.last_predictions).1).1 +
          (if "victory" = "victory" then (100 : Rat) else -100) ∧
      out.state.game_over_flag = some "victory" ∧
      out.state.match_over_detected = false ∧
      (∀ w2 : ResetWorld, (reset out.state w2).1.game_over_flag = none) :=
  c3_terminal_step_amended terminalState baseWorld 3 "victory" rfl (Or.inl rfl)

/-! ## Match-over latch lemmas and C4 -/

/-- The no-op index used by the latch is 2016. -/
theorem available_actions_noop_index : available_actions.length - 1 = 2016 := by
  rw [available_actions_length]

/-- C4: once the match-over overlay has been observed by a `step()` call,
every subsequent `step()` substitutes the no-op action (the last catalogue
entry, hence no card is played) in place of the caller's requested
`action_index` — the result does not depend on `action_index` at all —
and the latch persists across `step()` calls until the terminal outcome is
consumed, at which point it is cleared. -/
theorem c4_match_over_latch :
    (∀ (s : EnvState) (w : StepWorld) (ai aj : Nat),
      s.match_over_detected = true → step s w ai = step s w aj) ∧
    (∀ (s : EnvState) (w : StepWorld) (ai : Nat) (out : StepOut),
      (s.match_over_detected || w.matchOver) = true →
      gameOverTruthy s.game_over_flag = false →
      step s w ai = some out →
      out.state.match_over_detected = true ∧ out.played = none) ∧
    (∀ (s : EnvState) (w : StepWorld) (ai : Nat) (out : StepOut),
      gameOverTruthy s.game_over_flag = true →
      step s w ai = some out → out.state.match_over_detected = false) := by
  refine ⟨?_, ?_, ?_⟩
  · intro s w ai aj h
    simp [step, h]
  · intro s w ai out hmo hgo h
    simp only [step, hgo, Bool.false_eq_true, if_false, hmo, if_true] at h
    rw [available_actions_noop_index, available_actions_getD_noop] at h
    simp only [reduceIte] at h
    split at h
    · cases h
      exact ⟨rfl, rfl⟩
    · cases h
      exact ⟨rfl, rfl⟩
  · intro s w ai out hgo h
    simp only [step, hgo, if_true] at h
    cases h
    rfl

/-- Witness for C4: with the latch set, requesting action 7 and action 0
produce identical results. -/
theorem c4_match_over_latch_witness :
    step { baseState with match_over_detected := true } baseWorld 7 =
      step { baseState with match_over_detected := true } baseWorld 0 :=
  c4_match_over_latch.1 { baseState with match_over_detected := true }
    baseWorld 7 0 rfl

/-! ## C10: all-Unknown hand skips the move -/

/-- C10: if every entry of the detected hand is "Unknown" — including the
vacuous case of the empty hand returned when hand reading fails — `step()`
ignores the requested `action_index` (the result is identical for any two
requests), plays no card, and returns the next observation with reward
exactly 0 and `done = false`. -/
theorem c10_unknown_hand :
    ∀ (s : EnvState) (w : StepWorld) (ai aj : Nat),
      gameOverTruthy s.game_over_flag = false →
      w.cards.all (· == "Unknown") = true →
      step s w ai = step s w aj ∧
      ∃ out, step s w ai = some out ∧ out.reward = 0 ∧ out.done = false ∧
        out.played = none ∧
        out.obs = (get_state w.gsReturn.elixir w.gsReturn.res []).1 := by
  intro s w ai aj hgo hall
  have hstep : ∀ k : Nat, step s w k =
      some (stepUnknownHand
        { s with
          match_over_detected := s.match_over_detected || w.matchOver
          current_cards := w.cards } w) := by
    intro k
    simp [step, hgo, hall]
  exact ⟨(hstep ai).trans (hstep aj).symm,
    ⟨_, hstep ai, rfl, rfl, rfl, stepUnknownHand_obs _ w⟩⟩

/-- Witness for C10 on the vacuous empty hand. -/
theorem c10_unknown_hand_witness :
    step baseState unknownWorld 3 = step baseState unknownWorld 9 ∧
    ∃ out, step baseState unknownWorld 3 = some out ∧ out.reward = 0 ∧
      out.done = false ∧ out.played = none ∧
      out.obs = (get_state unknownWorld.gsReturn.elixir unknownWorld.gsReturn.res
        []).1 :=
  c10_unknown_hand baseState unknownWorld 3 9 rfl rfl

/-! ## Spell-accuracy coordinate lemmas and C6 -/

/-- `Rat.floor` agrees with the floor of the `FloorRing` instance. -/
theorem rat_floor_eq (q : Rat) : q.floor = ⌊q⌋ := rfl

/-- The first catalogue entry is card 0 at grid cell (0, 0). -/
theorem available_actions_getElem?_zero :
    available_actions[0]? = some ((0 : Int), (0 : Rat), (0 : Rat)) := by
  rw [available_actions, get_available_actions_getElem?_lt 4 18 28 0 (by norm_num)]
  have h := grid_actions_getElem? 4 18 28 0 0 0 (by norm_num) (by norm_num)
    (by norm_num)
  norm_num at h ⊢
  exact h

/-- C6 is a code bug: `step()` plays the Fireball (a spell) at the
centroid of the single tracked enemy — field pixel (640, 260), i.e. the
absolute device point `(640 + TOP_LEFT_X, 260 + TOP_LEFT_Y) = (640, 360)`
passed to `card_play` — and the spell-check screenshot sees that same
enemy at field fractions (1/2, 1/2).  The enemy is therefore exactly at
the play target, distance 0 in device space (third conjunct: adding the
field offset to the enemy pixel, the check succeeds at radius 100).  But
the code rebuilds the enemy pixel WITHOUT adding back `TOP_LEFT_Y`
(env.py 134-135), so it compares field-relative (640, 260) against
device-absolute (640, 360): distance exactly 100, not < 100 (second
conjunct), and the −5 penalty is applied (first conjunct) even though an
enemy sits exactly under the spell. -/
theorem c6_spell_penalty_bug :
    (step spellState spellWorld 0).map (fun o => (o.reward, o.played)) =
      some ((-5 : Rat), some (0, 640, 360)) ∧
    found_enemy [(640, 260)] 640 360 = false ∧
    found_enemy [(640 + TOP_LEFT_X, 260 + TOP_LEFT_Y)] 640 360 = true := by
  refine ⟨?_, by decide, by decide⟩
  have hunits : get_enemy_units [enemyAt640_260] = [((640:Rat), (260:Rat))] := by
    decide
  have hmem : ("Fireball" ∈ SPELL_CARDS) := by decide
  have hnotall : ¬("Fireball" = "Unknown" ∧ "Archers" = "Unknown" ∧
      "Giant" = "Unknown" ∧ "Musketeer" = "Unknown") := by decide
  have hplace : compute_placement "Fireball" [enemyAt640_260] = (1/2, 1/2) := by
    simp only [compute_placement, hunits, if_pos hmem]
    norm_num [clamp01, min_def, max_def, WIDTH, HEIGHT]
  have hx : pyInt ((1/2 : Rat) * (WIDTH : Rat)) + TOP_LEFT_X = 640 := by
    norm_num [pyInt, WIDTH, TOP_LEFT_X, rat_floor_eq]
  have hy : pyInt ((1/2 : Rat) * (HEIGHT : Rat)) + TOP_LEFT_Y = 360 := by
    norm_num [pyInt, HEIGHT, TOP_LEFT_Y, rat_floor_eq]
  have h1 : extractPreds spellResults = some (.plist [enemyAt640_260]) := rfl
  have hfa : List.filterMap (unit_xy "ally") [enemyAt640_260] = [] := by decide
  have hfe : List.filterMap (unit_xy "enemy") [enemyAt640_260] =
      [((640:Rat), (260:Rat))] := by decide
  have hgs : get_state 5 spellResults [enemyAt640_260] =
      (some (((5:Rat)/10) :: (flatUnits (padUnits [] MAX_ALLIES) ++
        flatUnits (padUnits [((640:Rat),(260:Rat))] MAX_ENEMIES))),
        [enemyAt640_260]) := by
    simp only [get_state, h1]
    norm_num [PredsVal.truthy, PredsVal.unwrapOnce, PredsVal.entries, hfa, hfe]
  have hsv : flatUnits (padUnits [] MAX_ALLIES) ++
      flatUnits (padUnits [((640:Rat),(260:Rat))] MAX_ENEMIES) =
      List.replicate 20 0 ++
        ((1/2 : Rat) :: (1/2 : Rat) :: List.replicate 18 0) := by
    norm_num [padUnits, flatUnits, normUnit, MAX_ALLIES, MAX_ENEMIES, WIDTH, HEIGHT,
      List.replicate, List.flatMap]
  have hpos : spell_enemy_positions ((1/2 : Rat) :: (List.replicate 20 0 ++
      ((1/2 : Rat) :: (1/2 : Rat) :: List.replicate 18 0))) = [(640, 260)] := by
    have hr : List.range MAX_ENEMIES = [0,1,2,3,4,5,6,7,8,9] := by decide
    norm_num [spell_enemy_positions, hr, MAX_ALLIES, WIDTH, HEIGHT, List.replicate,
      pyInt, rat_floor_eq, List.filterMap_cons]
  have hfound : found_enemy [(640, 260)] 640 360 = false := by decide
  have hempty : get_state 5 (Results.rlist []) [enemyAt640_260] =
      (none, [enemyAt640_260]) := rfl
  norm_num [step, stepPlay, stepFinish, spellState, spellWorld, baseState, baseWorld,
    emptyGS, gameOverTruthy, available_actions_getElem?_zero, hplace, hx, hy, hgs,
    hsv, hpos, hfound, hempty, hmem, hnotall, compute_reward]

/-! ## Hand-card detection lemmas and C7 -/

/-- If no slot raises, the loop records one name per slot: the top class
for a classified slot, "Unknown" for an empty result. -/
theorem runSlots_no_err (slots : List SlotResult) (h : SlotResult.err ∉ slots) :
    runSlots slots = some (slots.map slotName) := by
  induction slots with
  | nil => rfl
  | cons a rest ih =>
    have hrest : SlotResult.err ∉ rest := fun hh => h (List.mem_cons_of_mem _ hh)
    cases a with
    | ok c => simp [runSlots, ih hrest, slotName]
    | empty => simp [runSlots, ih hrest, slotName]
    | err => exact absurd (List.mem_cons_self _ _) h

/-- If any slot raises, the exception escapes the loop and the whole pass
returns nothing. -/
theorem runSlots_err (slots : List SlotResult) (h : SlotResult.err ∈ slots) :
    runSlots slots = none := by
  induction slots with
  | nil => cases h
  | cons a rest ih =>
    cases a with
    | err => rfl
    | ok c =>
      have hrest : SlotResult.err ∈ rest := by
        rcases List.mem_cons.mp h with h1 | h1
        · cases h1
        · exact h1
      simp [runSlots, ih hrest]
    | empty =>
      have hrest : SlotResult.err ∈ rest := by
        rcases List.mem_cons.mp h with h1 | h1
        · cases h1
        · exact h1
      simp [runSlots, ih hrest]

/-- C7 counterexample to the claim as stated: an exception while
classifying the second slot makes `detect_cards_in_hand` return `[]`
(the `except` wraps the whole loop), not a three-entry list with
"Unknown" in the failed slot — the pass IS aborted. -/
theorem c7_hand_detection_counterexample :
    detect_cards_in_hand [.ok "Knight", .err, .ok "Zap"] = [] ∧
    (detect_cards_in_hand [.ok "Knight", .err, .ok "Zap"]).length ≠ 3 := by
  exact ⟨rfl, by decide⟩

/-- C7 (amended): if classifying a hand-card slot returns an EMPTY result,
`detect_cards_in_hand` records "Unknown" for that slot and continues, so
when no slot raises, the returned list has exactly one entry per captured
slot; but if classifying any slot RAISES, the exception escapes the
per-slot loop and the whole pass aborts, returning the empty list. -/
theorem c7_hand_reading_amended :
    (∀ slots : List SlotResult, SlotResult.err ∉ slots →
      detect_cards_in_hand slots = slots.map slotName ∧
      (detect_cards_in_hand slots).length = slots.length) ∧
    (∀ slots : List SlotResult, SlotResult.err ∈ slots →
      detect_cards_in_hand slots = []) := by
  constructor
  · intro slots h
    have h1 : detect_cards_in_hand slots = slots.map slotName := by
      rw [detect_cards_in_hand, runSlots_no_err slots h]
      rfl
    exact ⟨h1, by rw [h1, List.length_map]⟩
  · intro slots h
    rw [detect_cards_in_hand, runSlots_err slots h]
    rfl

/-- Witness for C7: a hand with one classified slot and one empty slot
degrades the empty slot to "Unknown" and keeps both entries. -/
theorem c7_hand_reading_witness :
    detect_cards_in_hand [.ok "Knight", .empty] =
      ([.ok "Knight", .empty] : List SlotResult).map slotName ∧
    (detect_cards_in_hand [.ok "Knight", .empty]).length =
      ([.ok "Knight", .empty] : List SlotResult).length :=
  c7_hand_reading_amended.1 [.ok "Knight", .empty] (by decide)

/-! ## Configuration-validation lemmas and C8 -/

/-- C8 counterexample to the claim as stated: with the detection-service
credential set but BOTH workspace identifiers missing, construction
succeeds (no fatal error), and the missing `WORKSPACE_TROOP_DETECTION` is
only discovered when `_get_state` runs. -/
theorem c8_config_counterexample :
    exceptOk (env_init
      { roboflow_api_key := some "key", workspace_troop := none,
        workspace_card := none }) = true ∧
    exceptOk (get_state_checked
      { roboflow_api_key := some "key", workspace_troop := none,
        workspace_card := none } 5 .rother []) = false := by
  exact ⟨rfl, rfl⟩

/-- C8 (amended): only the detection-service credential
(`ROBOFLOW_API_KEY`) is validated at construction; the two workspace
identifiers are checked lazily at first use — `_get_state` raises when
`WORKSPACE_TROOP_DETECTION` is missing, and `detect_cards_in_hand`
swallows the missing `WORKSPACE_CARD_DETECTION` into an empty hand (the
raise happens inside its `try`). -/
theorem c8_config_validation_amended :
    (∀ c : Config, exceptOk (env_init c) = !blank c.roboflow_api_key) ∧
    (∀ (c : Config) (e : Nat) (r : Results) (lp : List PredEntry),
      blank c.workspace_troop = true →
      exceptOk (get_state_checked c e r lp) = false) ∧
    (∀ (c : Config) (e : Nat) (r : Results) (lp : List PredEntry),
      blank c.workspace_troop = false →
      get_state_checked c e r lp = .ok (get_state e r lp)) ∧
    (∀ (c : Config) (slots : List SlotResult),
      blank c.workspace_card = true → detect_cards_checked c slots = []) := by
  refine ⟨?_, ?_, ?_, ?_⟩
  · intro c
    cases h : blank c.roboflow_api_key <;>
      simp [env_init, setup_roboflow, setup_card_roboflow, h, exceptOk,
        Bind.bind, Except.bind]
  · intro c e r lp h
    simp [get_state_checked, h, exceptOk]
  · intro c e r lp h
    simp [get_state_checked, h]
  · intro c slots h
    simp [detect_cards_checked, h]

/-- Witness for C8: the concrete configuration with no troop workspace
makes `_get_state` fail. -/
theorem c8_config_validation_witness :
    exceptOk (get_state_checked
      { roboflow_api_key := some "key", workspace_troop := none,
        workspace_card := none } 5 .rother []) = false :=
  c8_config_validation_amended.2.1
    { roboflow_api_key := some "key", workspace_troop := none,
      workspace_card := none } 5 .rother [] rfl

/-! ## Watcher-loop lemmas and C9 -/

/-- C9: the watcher's polling loop terminates cooperatively.  Over any
trace: (1) if the stop signal is set at some iteration and no earlier
iteration stopped or detected, the loop exits right there — it performs
exactly one `detect_game_end` call per earlier iteration and none after
the stop, and latches nothing (so `close()`, which sets the signal and
joins, returns once the current iteration finishes); (2) on the first
truthy terminal detection the loop latches the outcome into the terminal
flag and stops polling — it never looks at the rest of the trace. -/
theorem c9_watcher_termination :
    (∀ (pre post : List PollInput) (p : PollInput),
      (∀ q ∈ pre, q.stopSet = false ∧ q.detect = none) → p.stopSet = true →
      watcher_run (pre ++ p :: post) = (none, pre.length)) ∧
    (∀ (pre post : List PollInput) (p : PollInput) (r : String),
      (∀ q ∈ pre, q.stopSet = false ∧ q.detect = none) → p.stopSet = false →
      p.detect = some r → r.isEmpty = false →
      watcher_run (pre ++ p :: post) = (some r, pre.length + 1)) := by
  constructor
  · intro pre post p hpre hp
    induction pre with
    | nil => simp [watcher_run, hp]
    | cons q rest ih =>
      have hq := hpre q (List.mem_cons_self _ _)
      simp [watcher_run, hq.1, hq.2,
        ih (fun x hx => hpre x (List.mem_cons_of_mem _ hx))]
  · intro pre post p r hpre hp hdet hne
    induction pre with
    | nil => simp [watcher_run, hp, hdet, hne]
    | cons q rest ih =>
      have hq := hpre q (List.mem_cons_self _ _)
      simp [watcher_run, hq.1, hq.2,
        ih (fun x hx => hpre x (List.mem_cons_of_mem _ hx))]

/-- Witness for C9: one quiet poll, then a victory detection, then more
trace that is never read: the watcher latches "victory" after exactly two
detect calls. -/
theorem c9_watcher_termination_witness :
    watcher_run ([⟨false, none⟩] ++ ⟨false, some "victory"⟩ :: [⟨false, none⟩]) =
      (some "victory", ([⟨false, none⟩] : List PollInput).length + 1) :=
  c9_watcher_termination.2 [⟨false, none⟩] [⟨false, none⟩]
    ⟨false, some "victory"⟩ "victory" (by decide) rfl rfl rfl

end CRBot
